import Mathlib

/-!
Verification of the declared JavaScript/WebAssembly boundary of
`src/executor-wasm/pkg/executor_wasm.d.ts` (repository mrDIMAS/FishFall).

The file under verification is a generated type-declaration file: it declares
the exported functions `main`, `initSync` and the default async initializer
`__wbg_init`, the input type aliases `InitInput` and `SyncInitInput`, and the
interface `InitOutput` describing the instantiated module's export surface.

We embed the declared types as data (`Ty`, `Member`, `FunDecl`) translated
member-for-member from the declaration file, give a small semantics of which
runtime value shapes a declared type accepts (`hasTy`), and model the
behaviour of the (absent) initializer implementations from the spec.
-/

namespace ExecutorWasm

/-- TypeScript type expressions as they occur in `executor_wasm.d.ts`.
Every function type in the file takes only `number`-typed parameters, so a
function type is recorded by its parameter count and return type
(`fn arity ret`).  `initOutput` is the named interface type `InitOutput`,
whose members are listed separately in `InitOutputMembers`. -/
inductive Ty where
  | requestInfo : Ty
  | url : Ty
  | response : Ty
  | bufferSource : Ty
  | wasmModule : Ty
  | wasmMemory : Ty
  | wasmTable : Ty
  | number : Ty
  | voidTy : Ty
  | initOutput : Ty
  | fn : Nat → Ty → Ty
  | union : Ty → Ty → Ty
  | promise : Ty → Ty
deriving DecidableEq, Repr

/-- `export type InitInput = RequestInfo | URL | Response | BufferSource |
WebAssembly.Module;` (unions associate to the left). -/
def InitInput : Ty :=
  .union (.union (.union (.union .requestInfo .url) .response) .bufferSource) .wasmModule

/-- `export type SyncInitInput = BufferSource | WebAssembly.Module;` -/
def SyncInitInput : Ty := .union .bufferSource .wasmModule

/-- One member of the `InitOutput` interface: its export name, whether it is
declared `readonly`, and its declared type. -/
structure Member where
  name : String
  readonly : Bool
  ty : Ty
deriving DecidableEq, Repr

/-- The members of `export interface InitOutput`, in declaration order,
translated line by line from `executor_wasm.d.ts`. -/
def InitOutputMembers : List Member :=
  [ ⟨"memory", true, .wasmMemory⟩,
    ⟨"main", true, .fn 0 .voidTy⟩,
    ⟨"__wbindgen_malloc", true, .fn 2 .number⟩,
    ⟨"__wbindgen_realloc", true, .fn 4 .number⟩,
    ⟨"__wbindgen_export_2", true, .wasmTable⟩,
    ⟨"wasm_bindgen__convert__closures__invoke1_mut__h101dba3788d44583", true, .fn 3 .voidTy⟩,
    ⟨"wasm_bindgen__convert__closures__invoke0_mut__h1c51a97846d81157", true, .fn 2 .voidTy⟩,
    ⟨"wasm_bindgen__convert__closures__invoke2_mut__ha1996bae5900be0d", true, .fn 4 .voidTy⟩,
    ⟨"wasm_bindgen__convert__closures__invoke0_mut__h004db82e21000bc1", true, .fn 2 .voidTy⟩,
    ⟨"wasm_bindgen__convert__closures__invoke1_mut__h1b4c66a40f743170", true, .fn 3 .voidTy⟩,
    ⟨"wasm_bindgen__convert__closures__invoke0_mut__hd470efaaecda53de", true, .fn 2 .voidTy⟩,
    ⟨"_dyn_core__ops__function__FnMut__A____Output___R_as_wasm_bindgen__closure__WasmClosure___describe__invoke__he553b55b3d103bf8", true, .fn 3 .voidTy⟩,
    ⟨"__wbindgen_free", true, .fn 3 .voidTy⟩,
    ⟨"__wbindgen_exn_store", true, .fn 1 .voidTy⟩ ]

/-- A parameter of a declared function: name, optionality (`?`), type. -/
structure Param where
  name : String
  optional : Bool
  ty : Ty
deriving DecidableEq, Repr

/-- A top-level function declaration of the file. -/
structure FunDecl where
  name : String
  params : List Param
  ret : Ty
deriving DecidableEq, Repr

/-- `export function main(): void;` -/
def mainDecl : FunDecl := ⟨"main", [], .voidTy⟩

/-- `export function initSync(module: SyncInitInput): InitOutput;` -/
def initSyncDecl : FunDecl := ⟨"initSync", [⟨"module", false, SyncInitInput⟩], .initOutput⟩

/-- The parameter type `InitInput | Promise<InitInput>` of `__wbg_init`. -/
def asyncParamTy : Ty := .union InitInput (.promise InitInput)

/-- `export default function __wbg_init (module_or_path?: InitInput |
Promise<InitInput>): Promise<InitOutput>;` -/
def wbgInitDecl : FunDecl := ⟨"__wbg_init", [⟨"module_or_path", true, asyncParamTy⟩], .promise .initOutput⟩

/-- Runtime value shapes relevant to the instantiation inputs: the five base
shapes named by the input aliases, and a settled promise of a shape. -/
inductive Shape where
  | requestInfo : Shape
  | url : Shape
  | response : Shape
  | bufferSource : Shape
  | wasmModule : Shape
  | promiseOf : Shape → Shape
deriving DecidableEq, Repr

/-- Which declared types accept which runtime value shapes: a base shape is
accepted by its own base type, a union accepts what either side accepts, and
a promise shape is accepted by a promise type of a type accepting the settled
value. -/
def hasTy (s : Shape) : Ty → Bool
  | .requestInfo => s == .requestInfo
  | .url => s == .url
  | .response => s == .response
  | .bufferSource => s == .bufferSource
  | .wasmModule => s == .wasmModule
  | .wasmMemory => false
  | .wasmTable => false
  | .number => false
  | .voidTy => false
  | .initOutput => false
  | .fn _ _ => false
  | .union a b => hasTy s a || hasTy s b
  | .promise t =>
      match s with
      | .promiseOf s0 => hasTy s0 t
      | _ => false

/-- The export names that claim C3 (and spec section 3) lists for the
instantiated module handle: memory, entry point, allocator pair, function
table, deallocator, exception-store slot. -/
def claimedNames : List String :=
  [ "memory", "main", "__wbindgen_malloc", "__wbindgen_realloc",
    "__wbindgen_export_2", "__wbindgen_free", "__wbindgen_exn_store" ]

/-- The seven closure-invocation trampoline exports of `InitOutput` (the
`...invoke..._mut__h...` members and the `_dyn_core...__invoke__h...`
member). -/
def trampolineNames : List String :=
  [ "wasm_bindgen__convert__closures__invoke1_mut__h101dba3788d44583",
    "wasm_bindgen__convert__closures__invoke0_mut__h1c51a97846d81157",
    "wasm_bindgen__convert__closures__invoke2_mut__ha1996bae5900be0d",
    "wasm_bindgen__convert__closures__invoke0_mut__h004db82e21000bc1",
    "wasm_bindgen__convert__closures__invoke1_mut__h1b4c66a40f743170",
    "wasm_bindgen__convert__closures__invoke0_mut__hd470efaaecda53de",
    "_dyn_core__ops__function__FnMut__A____Output___R_as_wasm_bindgen__closure__WasmClosure___describe__invoke__he553b55b3d103bf8" ]

/-- A member is one of the seven closure-invocation trampolines. -/
def isClosureTrampoline (m : Member) : Bool := trampolineNames.contains m.name

/-- Modelled from the spec: the two failure kinds of the loader, both
unrecoverable at this layer — malformed/incompatible module bytes raised at
instantiation time, and host-resource (network/fetch) failure on the async
path.  The implementation (`executor_wasm.js`) is not part of the supplied
source slice. -/
inductive InitError where
  | invalidBytes : InitError
  | hostFailure : InitError
deriving DecidableEq, Repr

/-- Modelled from the spec: validity of a compiled-module byte sequence.  A
well-formed compiled module begins with the standard module preamble (magic
number and version); anything else is malformed. -/
def validModuleBytes (b : List Nat) : Bool :=
  List.isPrefixOf [0x00, 0x61, 0x73, 0x6d, 0x01, 0x00, 0x00, 0x00] b

/-- Modelled from the spec: an already-compiled module object.  Compilation
has already validated the bytes, so a compiled module carries its own
well-formedness. -/
structure CompiledModule where
  bytes : List Nat
  wf : validModuleBytes bytes = true

/-- The shape of one export of a live handle: the memory region, the function
table, or a function with a given parameter count and whether it returns a
value. -/
inductive ExportKind where
  | memoryRegion : ExportKind
  | funcTable : ExportKind
  | funcExport : Nat → Bool → ExportKind
deriving DecidableEq, Repr

/-- The export kind a declared member type gives rise to. -/
def exportKindOfTy : Ty → ExportKind
  | .wasmMemory => .memoryRegion
  | .wasmTable => .funcTable
  | .fn a r => .funcExport a (r ≠ .voidTy)
  | _ => .funcExport 0 false

/-- Modelled from the spec: the Instantiated Module Handle — a linear memory
region (recorded by its size in bytes) together with the named export
surface. -/
structure Handle where
  exports : List (String × ExportKind)
  memSize : Nat
deriving DecidableEq, Repr

/-- The export surface every successful instantiation produces: exactly the
members declared by the `InitOutput` interface. -/
def standardExports : List (String × ExportKind) :=
  InitOutputMembers.map fun m => (m.name, exportKindOfTy m.ty)

/-- The size of one linear-memory page; a fresh handle's memory holds at
least one page, so it is non-empty. -/
def pageSize : Nat := 65536

/-- Modelled from the spec: instantiation of module bytes.  Malformed bytes
fail at instantiation time with no handle produced; valid bytes produce a
handle exposing a non-empty linear memory and the full declared export
surface. -/
def instantiateModule (b : List Nat) : Except InitError Handle :=
  if validModuleBytes b then
    .ok { exports := standardExports, memSize := pageSize }
  else
    .error .invalidBytes

/-- An input accepted by the synchronous initializer: a raw byte buffer or an
already-compiled module. -/
inductive SyncInput where
  | bytes : List Nat → SyncInput
  | compiled : CompiledModule → SyncInput

/-- Modelled from the spec: the behaviour of `initSync` — instantiates the
given input, which can either be bytes or a precompiled module, returning the
handle directly (no future) or failing fatally. -/
def initSync : SyncInput → Except InitError Handle
  | .bytes b => instantiateModule b
  | .compiled m => instantiateModule m.bytes

/-- Modelled from the spec: an instantiation source for the async path — a
URL/request-like descriptor (with its reachability and, when reachable, the
bytes it serves), a response-like object, a buffer, a compiled module, or a
pending value resolving to one of these. -/
inductive AsyncSource where
  | request : String → Bool → List Nat → AsyncSource
  | response : List Nat → AsyncSource
  | bytes : List Nat → AsyncSource
  | compiled : CompiledModule → AsyncSource
  | pending : AsyncSource → AsyncSource

/-- Modelled from the spec: resolving an instantiation source to module
bytes.  A request to an unreachable location is a host-resource failure; the
other sources yield their bytes; a pending source is awaited and resolved. -/
def resolveSource : AsyncSource → Except InitError (List Nat)
  | .request _ reachable body => if reachable then .ok body else .error .hostFailure
  | .response body => .ok body
  | .bytes b => .ok b
  | .compiled m => .ok m.bytes
  | .pending s => resolveSource s

/-- Modelled from the spec: the default async initializer `__wbg_init`.
Given a source (or falling back to the implementation-defined default
location `dflt` when called with no argument) it resolves the source and
instantiates the resulting bytes; the `Except` value is the settled future —
`ok` a resolution with the handle, `error` a rejection. -/
def wbg_init (src : Option AsyncSource) (dflt : AsyncSource) : Except InitError Handle :=
  (resolveSource (src.getD dflt)).bind instantiateModule

/-- A source on which instantiation cannot succeed: its resolution fails, or
it resolves to malformed bytes. -/
def sourceFails (s : AsyncSource) : Bool :=
  match resolveSource s with
  | .error _ => true
  | .ok b => !validModuleBytes b

/-- Claim C1: the declared input type `SyncInitInput` of `initSync` accepts
exactly the raw-binary-buffer and compiled-module shapes and no other, and
`initSync`'s declared return type is the `InitOutput` interface itself, not a
promise of it — the synchronous path never suspends. -/
theorem initSync_signature_c1 :
    (∀ s : Shape, hasTy s SyncInitInput = true ↔
      (s = .bufferSource ∨ s = .wasmModule)) ∧
    initSyncDecl.ret = .initOutput ∧
    (∀ t : Ty, initSyncDecl.ret ≠ .promise t) := by
  refine ⟨?_, rfl, ?_⟩
  · intro s
    cases s <;> simp [hasTy, SyncInitInput]
  · intro t
    simp [initSyncDecl]

/-- Witness for C1: the buffer shape is accepted by the synchronous input
type. -/
theorem initSync_signature_c1_witness :
    Shape.bufferSource = Shape.bufferSource ∨ Shape.bufferSource = Shape.wasmModule :=
  (initSync_signature_c1.1 Shape.bufferSource).mp (by decide)

/-- Claim C2: the default async initializer takes a single optional parameter
of declared type `InitInput | Promise<InitInput>`, returns
`Promise<InitOutput>`, and that parameter type accepts exactly the
instantiation-source shapes (request descriptor, URL, response, buffer,
compiled module) and settled promises of them. -/
theorem wbgInit_signature_c2 :
    wbgInitDecl.params = [⟨"module_or_path", true, asyncParamTy⟩] ∧
    wbgInitDecl.ret = .promise .initOutput ∧
    (∀ s : Shape, hasTy s asyncParamTy = true ↔
      (hasTy s InitInput = true ∨
        ∃ s0 : Shape, s = .promiseOf s0 ∧ hasTy s0 InitInput = true)) := by
  refine ⟨rfl, rfl, ?_⟩
  intro s
  cases s <;> simp [hasTy, asyncParamTy, InitInput]

/-- Witness for C2: a settled promise of a URL shape is accepted by the async
parameter type. -/
theorem wbgInit_signature_c2_witness :
    hasTy (Shape.promiseOf Shape.url) asyncParamTy = true ∨
      ∃ s0 : Shape, Shape.promiseOf Shape.url = Shape.promiseOf s0 ∧
        hasTy s0 InitInput = true :=
  Or.inl ((wbgInit_signature_c2.2.2 (Shape.promiseOf Shape.url)).mpr
    (Or.inr ⟨Shape.url, rfl, by decide⟩))

/-- Claim C3 counterexample: the `InitOutput` interface exposes a member — the
closure-invocation trampoline `...invoke1_mut__h101dba3788d44583` — that is
not among the members the claim's list names, so the handle's surface is not
exactly the listed one. -/
theorem initOutput_surface_c3_counterexample :
    (InitOutputMembers.map Member.name).contains
      "wasm_bindgen__convert__closures__invoke1_mut__h101dba3788d44583" = true ∧
    claimedNames.contains
      "wasm_bindgen__convert__closures__invoke1_mut__h101dba3788d44583" = false := by
  decide

/-- Claim C3 amended: every member of the `InitOutput` interface is either
one of the members the claim lists (memory, `main`, the allocator pair, the
function table, the deallocator, the exception-store slot) or one of exactly
seven closure-invocation trampolines, each a fixed-arity void-returning
function of two to four numeric parameters; and every listed name occurs. -/
theorem initOutput_surface_c3_amended :
    InitOutputMembers.all
      (fun m => claimedNames.contains m.name || isClosureTrampoline m) = true ∧
    (InitOutputMembers.filter isClosureTrampoline).length = 7 ∧
    claimedNames.all
      (fun n => (InitOutputMembers.map Member.name).contains n) = true ∧
    InitOutputMembers.all
      (fun m => !isClosureTrampoline m ||
        (match m.ty with
         | .fn a .voidTy => decide (2 ≤ a ∧ a ≤ 4)
         | _ => false)) = true := by
  decide

/-- Claim C4: on any malformed byte sequence, `initSync` fails at
instantiation time with the invalid-bytes error and no handle is produced. -/
theorem initSync_malformed_c4 (b : List Nat) (h : validModuleBytes b = false) :
    initSync (.bytes b) = .error .invalidBytes := by
  simp [initSync, instantiateModule, h]

/-- Witness for C4: the empty byte sequence is malformed and `initSync`
rejects it. -/
theorem initSync_malformed_c4_witness :
    validModuleBytes [] = false ∧
      initSync (.bytes []) = .error .invalidBytes :=
  ⟨by decide, initSync_malformed_c4 [] (by decide)⟩

/-- Claim C5: on any valid compiled-module byte sequence, `initSync` returns
a handle whose linear memory is non-empty and whose exports include every
name of the boundary-surface table. -/
theorem initSync_valid_c5 (b : List Nat) (h : validModuleBytes b = true) :
    ∃ hd : Handle, initSync (.bytes b) = .ok hd ∧ 0 < hd.memSize ∧
      claimedNames.all (fun n => (hd.exports.map Prod.fst).contains n) = true := by
  refine ⟨{ exports := standardExports, memSize := pageSize }, ?_, ?_, ?_⟩
  · simp [initSync, instantiateModule, h]
  · decide
  · decide

/-- Witness for C5: the bare module preamble is valid and instantiates to a
handle with non-empty memory and the full listed surface. -/
theorem initSync_valid_c5_witness :
    ∃ hd : Handle,
      initSync (.bytes [0x00, 0x61, 0x73, 0x6d, 0x01, 0x00, 0x00, 0x00]) = .ok hd ∧
      0 < hd.memSize ∧
      claimedNames.all (fun n => (hd.exports.map Prod.fst).contains n) = true :=
  initSync_valid_c5 [0x00, 0x61, 0x73, 0x6d, 0x01, 0x00, 0x00, 0x00] (by decide)

/-- Claim C6: when an async instantiation source resolves to bytes `b`, the
async initializer's settled outcome coincides with the synchronous path on
`b` — the same handle, hence an identical export surface. -/
theorem asyncSync_agree_c6 (s dflt : AsyncSource) (b : List Nat)
    (h : resolveSource s = .ok b) :
    wbg_init (some s) dflt = initSync (.bytes b) := by
  simp [wbg_init, initSync, h, Except.bind]

/-- Witness for C6: a buffer source carrying the module preamble gives the
async path the same outcome as the synchronous path. -/
theorem asyncSync_agree_c6_witness :
    wbg_init (some (.bytes [0x00, 0x61, 0x73, 0x6d, 0x01, 0x00, 0x00, 0x00]))
        (.bytes []) =
      initSync (.bytes [0x00, 0x61, 0x73, 0x6d, 0x01, 0x00, 0x00, 0x00]) :=
  asyncSync_agree_c6 _ _ _ rfl

/-- Claim C7: for every failing instantiation source (unreachable fetch or
malformed bytes) the async initializer settles as a rejection, and failure
surfaces no other way: a non-failing source settles with a handle. -/
theorem asyncReject_c7 (s dflt : AsyncSource) :
    (sourceFails s = true → ∃ e, wbg_init (some s) dflt = .error e) ∧
    (sourceFails s = false → ∃ hd, wbg_init (some s) dflt = .ok hd) := by
  cases hres : resolveSource s with
  | error e =>
      refine ⟨fun _ => ⟨e, ?_⟩, fun hf => ?_⟩
      · simp [wbg_init, hres, Except.bind]
      · simp [sourceFails, hres] at hf
  | ok b =>
      cases hv : validModuleBytes b with
      | true =>
          refine ⟨fun hf => ?_,
            fun _ => ⟨{ exports := standardExports, memSize := pageSize }, ?_⟩⟩
          · simp [sourceFails, hres, hv] at hf
          · simp [wbg_init, hres, instantiateModule, hv, Except.bind]
      | false =>
          refine ⟨fun _ => ⟨.invalidBytes, ?_⟩, fun hf => ?_⟩
          · simp [wbg_init, hres, instantiateModule, hv, Except.bind]
          · simp [sourceFails, hres, hv] at hf

/-- Witness for C7: an unreachable request source makes the async
initializer's future reject. -/
theorem asyncReject_c7_witness :
    ∃ e, wbg_init (some (.request "w" false [])) (.bytes []) = .error e :=
  (asyncReject_c7 (.request "w" false []) (.bytes [])).1 (by decide)

/-- Claim C8: the entry point `main` takes no arguments and returns no value,
both as the module-level declaration and as the `main` member of the
`InitOutput` interface. -/
theorem main_signature_c8 :
    mainDecl.params = [] ∧ mainDecl.ret = .voidTy ∧
    (InitOutputMembers.filter (fun m => m.name == "main")).map Member.ty
      = [.fn 0 .voidTy] := by
  refine ⟨rfl, rfl, ?_⟩
  decide

/-- Claim C9: every value shape accepted by the synchronous input type
`SyncInitInput` is also accepted by the asynchronous input type
`InitInput`. -/
theorem syncInput_subtype_c9 (s : Shape) (h : hasTy s SyncInitInput = true) :
    hasTy s InitInput = true := by
  cases s <;> simp_all [hasTy, SyncInitInput, InitInput]

/-- Witness for C9: the buffer shape, accepted synchronously, is accepted
asynchronously. -/
theorem syncInput_subtype_c9_witness : hasTy Shape.bufferSource InitInput = true :=
  syncInput_subtype_c9 Shape.bufferSource (by decide)

/-- Claim C10: every member of the `InitOutput` interface is declared
`readonly`, so the export surface established at instantiation cannot be
rebound for the handle's lifetime. -/
theorem initOutput_readonly_c10 :
    InitOutputMembers.all (fun m => m.readonly) = true := by
  decide

end ExecutorWasm
